import Mathlib

/-!
Shallow embedding of the `pyavd` CLI build pipeline
(`python-avd/pyavd/cli/build.py`).

The pipeline resolves an inventory into per-host variables (excluding the
host named "cvp"), computes fabric-wide facts once, runs a Stage 1 task
(input validation + structured-config generation) per host on a worker
pool, collects all Stage 1 results (a full barrier), then runs a Stage 2
task (structured-config validation + rendering) per host and writes each
rendered config to `<hostname>.cfg` in the output directory as results
arrive.

External collaborators (inventory resolution, fact aggregation, the two
validators, structured-config generation and rendering) are opaque pure
functions gathered in `Env`.  The nondeterministic completion order of
`as_completed` is modelled by explicit reorder functions, constrained to
permutations in the theorems.  The coordinator's actions, the worker-side
calls and the file writes are recorded in an event trace; a task's
worker-side events are placed at its submission point, the earliest point
they can occur, so every ordering theorem proved here also holds for any
later real placement.
-/

namespace AvdBuild

/-- Result of an external validation function: a `failed` flag plus an
ordered sequence of error records (modelled as strings). -/
structure ValidationResult where
  failed : Bool
  validation_errors : List String
  deriving DecidableEq

/-- The external collaborators used by `build.py`, as opaque pure
functions over abstract host-variable (`HV`), structured-config (`SC`)
and facts (`F`) payload types. -/
structure Env (HV SC F : Type) where
  validate_inputs : HV → ValidationResult
  get_avd_facts : List (String × HV) → F
  get_device_structured_config : String → HV → F → SC
  validate_structured_config : SC → ValidationResult
  get_device_config : SC → String

variable {HV SC F : Type}

/-- Stage 1 task body (`build_structured_config` in `build.py`): validate
the inputs; on failure print every validation error and raise; otherwise
return the hostname paired with the derived structured config.  The first
component is the list of printed error records, the second the task's
outcome. -/
def build_structured_config (env : Env HV SC F) (hostname : String) (inputs : HV)
    (avd_facts : F) : List String × Except String (String × SC) :=
  let results := env.validate_inputs inputs
  if results.failed then
    (results.validation_errors, Except.error (hostname ++ " validate_inputs failed"))
  else
    ([], Except.ok (hostname, env.get_device_structured_config hostname inputs avd_facts))

/-- Stage 2 task body (`build_designed_config` in `build.py`): validate
the structured config; on failure print every validation error and raise;
otherwise return the hostname paired with the rendered config text. -/
def build_designed_config (env : Env HV SC F) (hostname : String)
    (structured_config : SC) : List String × Except String (String × String) :=
  let results := env.validate_structured_config structured_config
  if results.failed then
    (results.validation_errors, Except.error (hostname ++ " validate_structured_config failed"))
  else
    ([], Except.ok (hostname, env.get_device_config structured_config))

/-- The `all_hostvars` mapping built by `build`: every inventory host
except `"cvp"`, paired with its resolved variables, in inventory order. -/
def all_hostvars (inventory : List String) (get_vars : String → HV) :
    List (String × HV) :=
  (inventory.filter (fun h => h ≠ "cvp")).map (fun h => (h, get_vars h))

/-- Observable events of one run: the single facts call, task submissions
(carrying the payload the task was given), the worker-side calls into the
external collaborators, printed error records, result collections, and
file writes (full path plus content). -/
inductive Event (HV SC F : Type) where
  | factsCall (arg : List (String × HV)) (result : F)
  | submit1 (host : String) (hostvars : HV) (facts : F)
  | validateInputsCall (host : String)
  | deriveStructuredCall (host : String)
  | printErr (msg : String)
  | collect1 (host : String)
  | submit2 (host : String) (structured : SC)
  | validateStructuredCall (host : String)
  | renderCall (host : String)
  | collect2 (host : String)
  | writeFile (path : List String) (content : String)
  deriving DecidableEq

/-- Events of one Stage 1 task, placed at its submission point: the
submission itself, the input-validation call, then either the printed
errors (failure) or the structured-config generation call (success). -/
def stage1TaskEvents (env : Env HV SC F) (facts : F) (p : String × HV) :
    List (Event HV SC F) :=
  Event.submit1 p.1 p.2 facts :: Event.validateInputsCall p.1 ::
    (let r := env.validate_inputs p.2
     if r.failed then r.validation_errors.map Event.printErr
     else [Event.deriveStructuredCall p.1])

/-- Events of one Stage 2 task, placed at its submission point. -/
def stage2TaskEvents (env : Env HV SC F) (p : String × SC) :
    List (Event HV SC F) :=
  Event.submit2 p.1 p.2 :: Event.validateStructuredCall p.1 ::
    (let r := env.validate_structured_config p.2
     if r.failed then r.validation_errors.map Event.printErr
     else [Event.renderCall p.1])

/-- The Stage 1 collection loop (`for future in as_completed(futures)`),
iterating over the futures in completion order: record a collection event
per retrieved result, abort at the first raising result, otherwise
accumulate the `(hostname, structured_config)` pairs in completion
order (the insertion order of the `structured_configs` dict). -/
def phase1Collect (env : Env HV SC F) (facts : F) :
    List (String × HV) → List (Event HV SC F) × Except String (List (String × SC))
  | [] => ([], Except.ok [])
  | (h, hv) :: rest =>
    match (build_structured_config env h hv facts).2 with
    | Except.error e => ([Event.collect1 h], Except.error e)
    | Except.ok p =>
      let step := phase1Collect env facts rest
      (Event.collect1 h :: step.1, step.2.map (fun l => p :: l))

/-- The Stage 2 collection-and-write loop: collect each result in
completion order, and write `<hostname>.cfg` into the output directory as
each result arrives (streaming).  A raising result aborts; a write into
an absent directory raises `FileNotFoundError` (the code never creates
the directory).  Writes performed before an abort are kept: the first
component of the returned triple is the trace, the second the list of
persisted `(path, content)` files, the third the loop's outcome. -/
def phase2Collect (env : Env HV SC F) (path : List String)
    (dirs : List (List String)) :
    List (String × SC) →
      List (Event HV SC F) × List (List String × String) × Except String Unit
  | [] => ([], [], Except.ok ())
  | (h, sc) :: rest =>
    match (build_designed_config env h sc).2 with
    | Except.error e => ([Event.collect2 h], [], Except.error e)
    | Except.ok p =>
      if path ∈ dirs then
        let step := phase2Collect env path dirs rest
        (Event.collect2 h ::
           Event.writeFile (path ++ [p.1 ++ ".cfg"]) p.2 :: step.1,
         (path ++ [p.1 ++ ".cfg"], p.2) :: step.2.1,
         step.2.2)
      else
        ([Event.collect2 h], [], Except.error "FileNotFoundError")

/-- What one run leaves behind: its event trace, the persisted files, and
whether `build` returned normally or propagated a failure. -/
structure BuildOutput (HV SC F : Type) where
  trace : List (Event HV SC F)
  writes : List (List String × String)
  result : Except String Unit

set_option linter.unusedVariables false in
/-- The `build` function of `build.py`.  `inventory`/`get_vars` model the
Ansible inventory and variable managers, `intended_configs_path` the
output directory, `dirs` the set of directories existing on the
filesystem, and `reorder1`/`reorder2` the completion order in which
`as_completed` yields the two phases' futures.  `max_workers` bounds
concurrency only and does not enter any computed value. -/
def build (env : Env HV SC F) (inventory : List String) (get_vars : String → HV)
    (intended_configs_path : List String) (dirs : List (List String))
    (reorder1 : List (String × HV) → List (String × HV))
    (reorder2 : List (String × SC) → List (String × SC))
    (max_workers : Nat) : BuildOutput HV SC F :=
  let ahv := all_hostvars inventory get_vars
  let avd_facts := env.get_avd_facts ahv
  let submitEvs1 := ahv.flatMap (stage1TaskEvents env avd_facts)
  let p1 := phase1Collect env avd_facts (reorder1 ahv)
  match p1.2 with
  | Except.error e =>
    { trace := Event.factsCall ahv avd_facts :: (submitEvs1 ++ p1.1),
      writes := [], result := Except.error e }
  | Except.ok structured_configs =>
    let submitEvs2 := structured_configs.flatMap (stage2TaskEvents env)
    let p2 := phase2Collect env intended_configs_path dirs (reorder2 structured_configs)
    { trace := Event.factsCall ahv avd_facts ::
        (submitEvs1 ++ p1.1 ++ submitEvs2 ++ p2.1),
      writes := p2.2.1, result := p2.2.2 }

/-- The CLI surface (`__main__` block): `--inventory-path` is required. -/
def cli_inventory_path_required : Bool := true

/-- Default of `--intended-configs-path`: `Path("intended", "configs")`. -/
def cli_intended_configs_path_default : List String := ["intended", "configs"]

/-- Default of `--max-workers` in the CLI argument parser. -/
def cli_max_workers_default : Nat := 10

/-- Default of the `max_workers` parameter in `build`'s signature. -/
def build_signature_max_workers_default : Nat := 10

/-- Whether an event is the facts-aggregation call. -/
def Event.isFactsCall : Event HV SC F → Bool
  | .factsCall _ _ => true
  | _ => false

/-- Whether an event is a Stage 1 task submission. -/
def Event.isSubmit1 : Event HV SC F → Bool
  | .submit1 _ _ _ => true
  | _ => false

/-- Whether an event is a Stage 1 result collection. -/
def Event.isCollect1 : Event HV SC F → Bool
  | .collect1 _ => true
  | _ => false

/-- Whether an event is a Stage 2 task submission. -/
def Event.isSubmit2 : Event HV SC F → Bool
  | .submit2 _ _ => true
  | _ => false

/-- Whether an event is a call of the config renderer. -/
def Event.isRenderCall : Event HV SC F → Bool
  | .renderCall _ => true
  | _ => false

/-- A small concrete environment over `Nat` payloads, used to evaluate the
theorems on concrete runs: host variables `0` validate, any other value
fails input validation with one error; facts are the number of hosts;
structured configs reaching `10` (which happens exactly for host `"b"`)
fail structured-config validation. -/
def sampleEnv : Env Nat Nat Nat :=
  { validate_inputs := fun n =>
      if n = 0 then ⟨false, []⟩ else ⟨true, ["bad input"]⟩,
    get_avd_facts := fun l => l.length,
    get_device_structured_config := fun h hv f =>
      hv + f + (if h = "b" then 10 else 0),
    validate_structured_config := fun sc =>
      if 10 ≤ sc then ⟨true, ["bad structured config"]⟩ else ⟨false, []⟩,
    get_device_config := fun sc => "config " ++ Nat.repr sc }

/-- Concrete host variables: host `"x"` gets the failing value `1`, every
other host the passing value `0`. -/
def sample_get_vars : String → Nat := fun h => if h = "x" then 1 else 0

lemma mem_stage1TaskEvents {env : Env HV SC F} {facts : F} {p : String × HV}
    {e : Event HV SC F} (h : e ∈ stage1TaskEvents env facts p) :
    e = Event.submit1 p.1 p.2 facts ∨ e = Event.validateInputsCall p.1 ∨
      (∃ m, e = Event.printErr m) ∨ e = Event.deriveStructuredCall p.1 := by
  simp only [stage1TaskEvents, List.mem_cons] at h
  rcases h with rfl | rfl | h
  · exact Or.inl rfl
  · exact Or.inr (Or.inl rfl)
  · by_cases hf : (env.validate_inputs p.2).failed
    · rw [if_pos hf] at h
      simp only [List.mem_map] at h
      obtain ⟨m, _, rfl⟩ := h
      exact Or.inr (Or.inr (Or.inl ⟨m, rfl⟩))
    · rw [if_neg hf] at h
      simp only [List.mem_singleton] at h
      exact Or.inr (Or.inr (Or.inr h))

lemma mem_stage2TaskEvents {env : Env HV SC F} {p : String × SC}
    {e : Event HV SC F} (h : e ∈ stage2TaskEvents env p) :
    e = Event.submit2 p.1 p.2 ∨ e = Event.validateStructuredCall p.1 ∨
      (∃ m, e = Event.printErr m) ∨ e = Event.renderCall p.1 := by
  simp only [stage2TaskEvents, List.mem_cons] at h
  rcases h with rfl | rfl | h
  · exact Or.inl rfl
  · exact Or.inr (Or.inl rfl)
  · by_cases hf : (env.validate_structured_config p.2).failed
    · rw [if_pos hf] at h
      simp only [List.mem_map] at h
      obtain ⟨m, _, rfl⟩ := h
      exact Or.inr (Or.inr (Or.inl ⟨m, rfl⟩))
    · rw [if_neg hf] at h
      simp only [List.mem_singleton] at h
      exact Or.inr (Or.inr (Or.inr h))

lemma build_structured_config_of_pass {env : Env HV SC F} {hostname : String}
    {inputs : HV} {facts : F} (h : (env.validate_inputs inputs).failed = false) :
    build_structured_config env hostname inputs facts =
      ([], Except.ok (hostname, env.get_device_structured_config hostname inputs facts)) := by
  simp [build_structured_config, h]

lemma build_structured_config_of_fail {env : Env HV SC F} {hostname : String}
    {inputs : HV} {facts : F} (h : (env.validate_inputs inputs).failed = true) :
    build_structured_config env hostname inputs facts =
      ((env.validate_inputs inputs).validation_errors,
        Except.error (hostname ++ " validate_inputs failed")) := by
  simp [build_structured_config, h]

lemma build_designed_config_of_pass {env : Env HV SC F} {hostname : String}
    {sc : SC} (h : (env.validate_structured_config sc).failed = false) :
    build_designed_config env hostname sc =
      ([], Except.ok (hostname, env.get_device_config sc)) := by
  simp [build_designed_config, h]

lemma build_designed_config_of_fail {env : Env HV SC F} {hostname : String}
    {sc : SC} (h : (env.validate_structured_config sc).failed = true) :
    build_designed_config env hostname sc =
      ((env.validate_structured_config sc).validation_errors,
        Except.error (hostname ++ " validate_structured_config failed")) := by
  simp [build_designed_config, h]

lemma phase1Collect_cons_fail {env : Env HV SC F} {facts : F} {a : String}
    {hv : HV} {rest : List (String × HV)}
    (hf : (env.validate_inputs hv).failed = true) :
    phase1Collect env facts ((a, hv) :: rest) =
      ([Event.collect1 a], Except.error (a ++ " validate_inputs failed")) := by
  conv_lhs => rw [phase1Collect]
  rw [build_structured_config_of_fail hf]

lemma phase1Collect_cons_pass {env : Env HV SC F} {facts : F} {a : String}
    {hv : HV} {rest : List (String × HV)}
    (hp : (env.validate_inputs hv).failed = false) :
    phase1Collect env facts ((a, hv) :: rest) =
      (Event.collect1 a :: (phase1Collect env facts rest).1,
       ((phase1Collect env facts rest).2).map
         (fun l => (a, env.get_device_structured_config a hv facts) :: l)) := by
  conv_lhs => rw [phase1Collect]
  rw [build_structured_config_of_pass hp]

lemma mem_phase1Collect_events {env : Env HV SC F} {facts : F} :
    ∀ {order : List (String × HV)} {e : Event HV SC F},
      e ∈ (phase1Collect env facts order).1 → ∃ h, e = Event.collect1 h
  | [], _, h => by simp [phase1Collect] at h
  | (a, hv) :: rest, e, h => by
    by_cases hf : (env.validate_inputs hv).failed
    · rw [phase1Collect_cons_fail hf] at h
      simp only [List.mem_singleton] at h
      exact ⟨a, h⟩
    · rw [phase1Collect_cons_pass (by simpa using hf)] at h
      simp only [List.mem_cons] at h
      rcases h with rfl | h
      · exact ⟨a, rfl⟩
      · exact mem_phase1Collect_events h

lemma phase1Collect_all_pass {env : Env HV SC F} {facts : F} :
    ∀ {order : List (String × HV)},
      (∀ p ∈ order, (env.validate_inputs p.2).failed = false) →
      phase1Collect env facts order =
        (order.map (fun p => Event.collect1 p.1),
         Except.ok (order.map
           (fun p => (p.1, env.get_device_structured_config p.1 p.2 facts))))
  | [], _ => rfl
  | (a, hv) :: rest, hall => by
    have ha : (env.validate_inputs hv).failed = false := hall (a, hv) (by simp)
    have hrest : ∀ p ∈ rest, (env.validate_inputs p.2).failed = false :=
      fun p hp => hall p (List.mem_cons_of_mem _ hp)
    rw [phase1Collect_cons_pass ha, phase1Collect_all_pass hrest]
    simp [Except.map]

lemma phase1Collect_ok {env : Env HV SC F} {facts : F} :
    ∀ {order : List (String × HV)} {configs : List (String × SC)},
      (phase1Collect env facts order).2 = Except.ok configs →
      (∀ p ∈ order, (env.validate_inputs p.2).failed = false) ∧
        configs = order.map
          (fun p => (p.1, env.get_device_structured_config p.1 p.2 facts))
  | [], configs, h => by
    simp only [phase1Collect, Except.ok.injEq] at h
    exact ⟨by simp, by simp [← h]⟩
  | (a, hv) :: rest, configs, h => by
    by_cases hf : (env.validate_inputs hv).failed
    · rw [phase1Collect_cons_fail hf] at h
      simp at h
    · have hf' : (env.validate_inputs hv).failed = false := by simpa using hf
      rw [phase1Collect_cons_pass hf'] at h
      rcases hrec : (phase1Collect env facts rest).2 with er | cs
      · rw [hrec] at h
        simp [Except.map] at h
      · rw [hrec] at h
        simp only [Except.map, Except.ok.injEq] at h
        obtain ⟨hpass, hcs⟩ := phase1Collect_ok hrec
        constructor
        · intro p hp
          simp only [List.mem_cons] at hp
          rcases hp with rfl | hp
          · exact hf'
          · exact hpass p hp
        · simp [← h, hcs]

lemma phase1Collect_error_of_mem {env : Env HV SC F} {facts : F}
    {q : String × HV} (hf : (env.validate_inputs q.2).failed = true) :
    ∀ {order : List (String × HV)}, q ∈ order →
      ∃ e, (phase1Collect env facts order).2 = Except.error e
  | [], hmem => by simp at hmem
  | (a, hv) :: rest, hmem => by
    by_cases ha : (env.validate_inputs hv).failed
    · rw [phase1Collect_cons_fail ha]
      exact ⟨a ++ " validate_inputs failed", rfl⟩
    · have ha' : (env.validate_inputs hv).failed = false := by simpa using ha
      rw [phase1Collect_cons_pass ha']
      have hq : q ∈ rest := by
        rcases List.mem_cons.mp hmem with hh | hh
        · rw [hh] at hf
          simp only at hf
          rw [hf] at ha'
          simp at ha'
        · exact hh
      have hrec : ∃ e, (phase1Collect env facts rest).2 = Except.error e :=
        phase1Collect_error_of_mem hf hq
      obtain ⟨e, he⟩ := hrec
      refine ⟨e, ?_⟩
      simp only [Except.map]
      rw [he]

lemma phase2Collect_cons_fail {env : Env HV SC F} {path : List String}
    {dirs : List (List String)} {a : String} {sc : SC}
    {rest : List (String × SC)}
    (hf : (env.validate_structured_config sc).failed = true) :
    phase2Collect env path dirs ((a, sc) :: rest) =
      ([Event.collect2 a], [],
        Except.error (a ++ " validate_structured_config failed")) := by
  conv_lhs => rw [phase2Collect]
  rw [build_designed_config_of_fail hf]

lemma phase2Collect_cons_pass_dir {env : Env HV SC F} {path : List String}
    {dirs : List (List String)} {a : String} {sc : SC}
    {rest : List (String × SC)}
    (hp : (env.validate_structured_config sc).failed = false)
    (hd : path ∈ dirs) :
    phase2Collect env path dirs ((a, sc) :: rest) =
      (Event.collect2 a ::
         Event.writeFile (path ++ [a ++ ".cfg"]) (env.get_device_config sc) ::
         (phase2Collect env path dirs rest).1,
       (path ++ [a ++ ".cfg"], env.get_device_config sc) ::
         (phase2Collect env path dirs rest).2.1,
       (phase2Collect env path dirs rest).2.2) := by
  conv_lhs => rw [phase2Collect]
  rw [build_designed_config_of_pass hp]
  simp only [if_pos hd]

lemma phase2Collect_cons_pass_nodir {env : Env HV SC F} {path : List String}
    {dirs : List (List String)} {a : String} {sc : SC}
    {rest : List (String × SC)}
    (hp : (env.validate_structured_config sc).failed = false)
    (hd : path ∉ dirs) :
    phase2Collect env path dirs ((a, sc) :: rest) =
      ([Event.collect2 a], [], Except.error "FileNotFoundError") := by
  conv_lhs => rw [phase2Collect]
  rw [build_designed_config_of_pass hp]
  simp only [if_neg hd]

lemma mem_phase2Collect_events {env : Env HV SC F} {path : List String}
    {dirs : List (List String)} :
    ∀ {order : List (String × SC)} {e : Event HV SC F},
      e ∈ (phase2Collect env path dirs order).1 →
        (∃ h, e = Event.collect2 h) ∨ (∃ pa c, e = Event.writeFile pa c)
  | [], _, h => by simp [phase2Collect] at h
  | (a, sc) :: rest, e, h => by
    by_cases hf : (env.validate_structured_config sc).failed
    · rw [phase2Collect_cons_fail hf] at h
      simp only [List.mem_singleton] at h
      exact Or.inl ⟨a, h⟩
    · have hf' : (env.validate_structured_config sc).failed = false := by simpa using hf
      by_cases hd : path ∈ dirs
      · rw [phase2Collect_cons_pass_dir hf' hd] at h
        simp only [List.mem_cons] at h
        rcases h with rfl | rfl | h
        · exact Or.inl ⟨a, rfl⟩
        · exact Or.inr ⟨path ++ [a ++ ".cfg"], env.get_device_config sc, rfl⟩
        · exact mem_phase2Collect_events h
      · rw [phase2Collect_cons_pass_nodir hf' hd] at h
        simp only [List.mem_singleton] at h
        exact Or.inl ⟨a, h⟩

lemma phase2Collect_all_pass {env : Env HV SC F} {path : List String}
    {dirs : List (List String)} (hd : path ∈ dirs) :
    ∀ {order : List (String × SC)},
      (∀ p ∈ order, (env.validate_structured_config p.2).failed = false) →
      phase2Collect env path dirs order =
        (order.flatMap (fun p =>
           [Event.collect2 p.1,
            Event.writeFile (path ++ [p.1 ++ ".cfg"]) (env.get_device_config p.2)]),
         order.map (fun p => (path ++ [p.1 ++ ".cfg"], env.get_device_config p.2)),
         Except.ok ())
  | [], _ => rfl
  | (a, sc) :: rest, hall => by
    have ha : (env.validate_structured_config sc).failed = false :=
      hall (a, sc) (by simp)
    have hrest : ∀ p ∈ rest, (env.validate_structured_config p.2).failed = false :=
      fun p hp => hall p (List.mem_cons_of_mem _ hp)
    rw [phase2Collect_cons_pass_dir ha hd, phase2Collect_all_pass hd hrest]
    simp

lemma phase2Collect_ok {env : Env HV SC F} {path : List String}
    {dirs : List (List String)} :
    ∀ {order : List (String × SC)},
      (phase2Collect env path dirs order).2.2 = Except.ok () →
      ∀ p ∈ order, (env.validate_structured_config p.2).failed = false
  | [], _, p, hp => by simp at hp
  | (a, sc) :: rest, h, p, hp => by
    by_cases hf : (env.validate_structured_config sc).failed
    · rw [phase2Collect_cons_fail hf] at h
      simp at h
    · have hf' : (env.validate_structured_config sc).failed = false := by simpa using hf
      by_cases hd : path ∈ dirs
      · rw [phase2Collect_cons_pass_dir hf' hd] at h
        simp only [List.mem_cons] at hp
        rcases hp with rfl | hp
        · exact hf'
        · exact phase2Collect_ok h p hp
      · rw [phase2Collect_cons_pass_nodir hf' hd] at h
        simp at h

lemma all_hostvars_mem {inventory : List String} {get_vars : String → HV}
    {p : String × HV} (h : p ∈ all_hostvars inventory get_vars) :
    p.1 ∈ inventory ∧ p.1 ≠ "cvp" ∧ p.2 = get_vars p.1 := by
  simp only [all_hostvars, List.mem_map, List.mem_filter] at h
  obtain ⟨a, ⟨hmem, hne⟩, rfl⟩ := h
  exact ⟨hmem, by simpa using hne, rfl⟩

lemma build_eq_error {env : Env HV SC F} {inventory : List String}
    {get_vars : String → HV} {path : List String} {dirs : List (List String)}
    {reorder1 : List (String × HV) → List (String × HV)}
    {reorder2 : List (String × SC) → List (String × SC)} {mw : Nat} {er : String}
    (h : (phase1Collect env (env.get_avd_facts (all_hostvars inventory get_vars))
        (reorder1 (all_hostvars inventory get_vars))).2 = Except.error er) :
    build env inventory get_vars path dirs reorder1 reorder2 mw =
      { trace := Event.factsCall (all_hostvars inventory get_vars)
          (env.get_avd_facts (all_hostvars inventory get_vars)) ::
          ((all_hostvars inventory get_vars).flatMap
             (stage1TaskEvents env (env.get_avd_facts (all_hostvars inventory get_vars))) ++
           (phase1Collect env (env.get_avd_facts (all_hostvars inventory get_vars))
             (reorder1 (all_hostvars inventory get_vars))).1),
        writes := [], result := Except.error er } := by
  simp only [build]
  rw [h]

lemma build_eq_ok {env : Env HV SC F} {inventory : List String}
    {get_vars : String → HV} {path : List String} {dirs : List (List String)}
    {reorder1 : List (String × HV) → List (String × HV)}
    {reorder2 : List (String × SC) → List (String × SC)} {mw : Nat}
    {configs : List (String × SC)}
    (h : (phase1Collect env (env.get_avd_facts (all_hostvars inventory get_vars))
        (reorder1 (all_hostvars inventory get_vars))).2 = Except.ok configs) :
    build env inventory get_vars path dirs reorder1 reorder2 mw =
      { trace := Event.factsCall (all_hostvars inventory get_vars)
          (env.get_avd_facts (all_hostvars inventory get_vars)) ::
          ((all_hostvars inventory get_vars).flatMap
             (stage1TaskEvents env (env.get_avd_facts (all_hostvars inventory get_vars))) ++
           (phase1Collect env (env.get_avd_facts (all_hostvars inventory get_vars))
             (reorder1 (all_hostvars inventory get_vars))).1 ++
           configs.flatMap (stage2TaskEvents env) ++
           (phase2Collect env path dirs (reorder2 configs)).1),
        writes := (phase2Collect env path dirs (reorder2 configs)).2.1,
        result := (phase2Collect env path dirs (reorder2 configs)).2.2 } := by
  simp only [build]
  rw [h]

lemma stage1Block_shape {env : Env HV SC F} {facts : F}
    {l : List (String × HV)} {e : Event HV SC F}
    (h : e ∈ l.flatMap (stage1TaskEvents env facts)) :
    e.isFactsCall = false ∧ e.isCollect1 = false ∧ e.isSubmit2 = false ∧
      e.isRenderCall = false := by
  simp only [List.mem_flatMap] at h
  obtain ⟨p, _, hp⟩ := h
  rcases mem_stage1TaskEvents hp with rfl | rfl | ⟨m, rfl⟩ | rfl <;>
    exact ⟨rfl, rfl, rfl, rfl⟩

lemma phase1Events_shape {env : Env HV SC F} {facts : F}
    {order : List (String × HV)} {e : Event HV SC F}
    (h : e ∈ (phase1Collect env facts order).1) :
    e.isFactsCall = false ∧ e.isSubmit1 = false ∧ e.isSubmit2 = false ∧
      e.isRenderCall = false := by
  obtain ⟨a, rfl⟩ := mem_phase1Collect_events h
  exact ⟨rfl, rfl, rfl, rfl⟩

lemma stage2Block_shape {env : Env HV SC F}
    {l : List (String × SC)} {e : Event HV SC F}
    (h : e ∈ l.flatMap (stage2TaskEvents env)) :
    e.isFactsCall = false ∧ e.isCollect1 = false ∧ e.isSubmit1 = false := by
  simp only [List.mem_flatMap] at h
  obtain ⟨p, _, hp⟩ := h
  rcases mem_stage2TaskEvents hp with rfl | rfl | ⟨m, rfl⟩ | rfl <;>
    exact ⟨rfl, rfl, rfl⟩

lemma phase2Events_shape {env : Env HV SC F} {path : List String}
    {dirs : List (List String)} {order : List (String × SC)} {e : Event HV SC F}
    (h : e ∈ (phase2Collect env path dirs order).1) :
    e.isFactsCall = false ∧ e.isCollect1 = false ∧ e.isSubmit1 = false ∧
      e.isSubmit2 = false := by
  rcases mem_phase2Collect_events h with ⟨a, rfl⟩ | ⟨pa, c, rfl⟩ <;>
    exact ⟨rfl, rfl, rfl, rfl⟩

lemma submit1_mem_stage1Block {env : Env HV SC F} {facts : F}
    {l : List (String × HV)} {h : String} {hv : HV} {f : F}
    (hmem : Event.submit1 h hv f ∈ l.flatMap (stage1TaskEvents env facts)) :
    f = facts ∧ (h, hv) ∈ l := by
  simp only [List.mem_flatMap] at hmem
  obtain ⟨p, hpl, hp⟩ := hmem
  rcases mem_stage1TaskEvents hp with heq | heq | ⟨m, heq⟩ | heq
  · obtain ⟨h1, h2, h3⟩ := Event.submit1.inj heq
    refine ⟨h3, ?_⟩
    rw [h1, h2]
    simpa using hpl
  · exact absurd heq (by simp)
  · exact absurd heq (by simp)
  · exact absurd heq (by simp)

lemma submit2_mem_stage2Block {env : Env HV SC F}
    {l : List (String × SC)} {h : String} {sc : SC}
    (hmem : Event.submit2 h sc ∈ l.flatMap (stage2TaskEvents env)) :
    (h, sc) ∈ l := by
  simp only [List.mem_flatMap] at hmem
  obtain ⟨p, hpl, hp⟩ := hmem
  rcases mem_stage2TaskEvents hp with heq | heq | ⟨m, heq⟩ | heq
  · obtain ⟨h1, h2⟩ := Event.submit2.inj heq
    rw [h1, h2]
    simpa using hpl
  · exact absurd heq (by simp)
  · exact absurd heq (by simp)
  · exact absurd heq (by simp)

lemma split_index_lt {α : Type} {l A B : List α} (hsplit : l = A ++ B)
    {P Q : α → Bool} (hA : ∀ e ∈ A, Q e = false) (hB : ∀ e ∈ B, P e = false)
    {i j : Nat} (hi : i < l.length) (hj : j < l.length)
    (hP : P (l.get ⟨i, hi⟩) = true) (hQ : Q (l.get ⟨j, hj⟩) = true) :
    i < j := by
  subst hsplit
  have hiA : i < A.length := by
    by_contra hge
    push_neg at hge
    have hmem : (A ++ B).get ⟨i, hi⟩ ∈ B := by
      rw [List.get_eq_getElem, List.getElem_append_right hge]
      exact List.getElem_mem _
    have hfalse := hB _ hmem
    rw [hfalse] at hP
    exact Bool.false_ne_true hP
  have hjB : A.length ≤ j := by
    by_contra hlt
    push_neg at hlt
    have hmem : (A ++ B).get ⟨j, hj⟩ ∈ A := by
      rw [List.get_eq_getElem, List.getElem_append_left hlt]
      exact List.getElem_mem _
    have hfalse := hA _ hmem
    rw [hfalse] at hQ
    exact Bool.false_ne_true hQ
  exact Nat.lt_of_lt_of_le hiA hjB

lemma split_index_lt4 {α : Type} (x : α) (B1 C1 B2 C2 : List α) {P Q : α → Bool}
    (hx : Q x = false) (hB1 : ∀ e ∈ B1, Q e = false)
    (hC1 : ∀ e ∈ C1, Q e = false) (hB2 : ∀ e ∈ B2, P e = false)
    (hC2 : ∀ e ∈ C2, P e = false) {i j : Nat}
    (hi : i < (x :: (B1 ++ C1 ++ B2 ++ C2)).length)
    (hj : j < (x :: (B1 ++ C1 ++ B2 ++ C2)).length)
    (hP : P ((x :: (B1 ++ C1 ++ B2 ++ C2)).get ⟨i, hi⟩) = true)
    (hQ : Q ((x :: (B1 ++ C1 ++ B2 ++ C2)).get ⟨j, hj⟩) = true) :
    i < j := by
  have hsplit : x :: (B1 ++ C1 ++ B2 ++ C2) =
      (x :: (B1 ++ C1)) ++ (B2 ++ C2) := by
    simp [List.append_assoc]
  refine split_index_lt hsplit ?_ ?_ hi hj hP hQ
  · intro e he
    rcases List.mem_cons.mp he with rfl | he
    · exact hx
    · rcases List.mem_append.mp he with he | he
      · exact hB1 e he
      · exact hC1 e he
  · intro e he
    rcases List.mem_append.mp he with he | he
    · exact hB2 e he
    · exact hC2 e he

lemma build_all_pass (env : Env HV SC F) (inventory : List String)
    (get_vars : String → HV) (path : List String) (dirs : List (List String))
    (reorder1 : List (String × HV) → List (String × HV))
    (reorder2 : List (String × SC) → List (String × SC)) (mw : Nat)
    (hp1 : ∀ l, (reorder1 l).Perm l) (hp2 : ∀ l, (reorder2 l).Perm l)
    (hpass1 : ∀ p ∈ all_hostvars inventory get_vars,
      (env.validate_inputs p.2).failed = false)
    (hpass2 : ∀ p ∈ all_hostvars inventory get_vars,
      (env.validate_structured_config (env.get_device_structured_config p.1 p.2
        (env.get_avd_facts (all_hostvars inventory get_vars)))).failed = false)
    (hdir : path ∈ dirs) :
    (build env inventory get_vars path dirs reorder1 reorder2 mw).result =
      Except.ok () ∧
    (build env inventory get_vars path dirs reorder1 reorder2 mw).writes.Perm
      ((inventory.filter (fun h => h ≠ "cvp")).map
        (fun h => (path ++ [h ++ ".cfg"], env.get_device_config
          (env.get_device_structured_config h (get_vars h)
            (env.get_avd_facts (all_hostvars inventory get_vars)))))) := by
  have hpass1' : ∀ p ∈ reorder1 (all_hostvars inventory get_vars),
      (env.validate_inputs p.2).failed = false :=
    fun p hp => hpass1 p (((hp1 _).mem_iff).mp hp)
  have hev : phase1Collect env
      (env.get_avd_facts (all_hostvars inventory get_vars))
      (reorder1 (all_hostvars inventory get_vars)) =
      ((reorder1 (all_hostvars inventory get_vars)).map
         (fun p => Event.collect1 p.1),
       Except.ok ((reorder1 (all_hostvars inventory get_vars)).map
         (fun p => (p.1, env.get_device_structured_config p.1 p.2
           (env.get_avd_facts (all_hostvars inventory get_vars)))))) :=
    phase1Collect_all_pass hpass1'
  have hok2 : (phase1Collect env
      (env.get_avd_facts (all_hostvars inventory get_vars))
      (reorder1 (all_hostvars inventory get_vars))).2 =
      Except.ok ((reorder1 (all_hostvars inventory get_vars)).map
        (fun p => (p.1, env.get_device_structured_config p.1 p.2
          (env.get_avd_facts (all_hostvars inventory get_vars))))) := by
    rw [hev]
  rw [build_eq_ok hok2]
  have hpass2' : ∀ q ∈ reorder2 ((reorder1 (all_hostvars inventory get_vars)).map
      (fun p => (p.1, env.get_device_structured_config p.1 p.2
        (env.get_avd_facts (all_hostvars inventory get_vars))))),
      (env.validate_structured_config q.2).failed = false := by
    intro q hq
    have hq' := ((hp2 _).mem_iff).mp hq
    simp only [List.mem_map] at hq'
    obtain ⟨p, hporder, rfl⟩ := hq'
    exact hpass2 p (((hp1 _).mem_iff).mp hporder)
  have hev2 := phase2Collect_all_pass hdir hpass2'
  constructor
  · rw [hev2]
  · rw [hev2]
    refine List.Perm.trans ((hp2 _).map _) ?_
    have hmm1 : (((reorder1 (all_hostvars inventory get_vars)).map
        (fun p => (p.1, env.get_device_structured_config p.1 p.2
          (env.get_avd_facts (all_hostvars inventory get_vars))))).map
        (fun p => (path ++ [p.1 ++ ".cfg"], env.get_device_config p.2))) =
        (reorder1 (all_hostvars inventory get_vars)).map
          (fun p => (path ++ [p.1 ++ ".cfg"], env.get_device_config
            (env.get_device_structured_config p.1 p.2
              (env.get_avd_facts (all_hostvars inventory get_vars))))) := by
      rw [List.map_map]
      rfl
    rw [hmm1]
    refine List.Perm.trans ((hp1 _).map _) ?_
    have hmm2 : (all_hostvars inventory get_vars).map
        (fun p => (path ++ [p.1 ++ ".cfg"], env.get_device_config
          (env.get_device_structured_config p.1 p.2
            (env.get_avd_facts (all_hostvars inventory get_vars))))) =
        (inventory.filter (fun h => h ≠ "cvp")).map
          (fun h => (path ++ [h ++ ".cfg"], env.get_device_config
            (env.get_device_structured_config h (get_vars h)
              (env.get_avd_facts (all_hostvars inventory get_vars))))) := by
      simp only [all_hostvars, List.map_map]
      rfl
    rw [hmm2]

/-- C2: `build_structured_config` fails exactly when `validate_inputs`
reports failure, and then its printed output is the whole list of
validation errors and no structured config is produced; on success it
prints nothing and returns the hostname with the derived structured
config.  `build_designed_config` behaves the same way against
`validate_structured_config`, returning the rendered config on success. -/
theorem C2_stage_wrappers_validate (env : Env HV SC F) (hostname : String)
    (inputs : HV) (avd_facts : F) (sc : SC) :
    ((env.validate_inputs inputs).failed = true →
       build_structured_config env hostname inputs avd_facts =
         ((env.validate_inputs inputs).validation_errors,
          Except.error (hostname ++ " validate_inputs failed")))
    ∧ ((env.validate_inputs inputs).failed = false →
       build_structured_config env hostname inputs avd_facts =
         ([], Except.ok
            (hostname, env.get_device_structured_config hostname inputs avd_facts)))
    ∧ ((env.validate_structured_config sc).failed = true →
       build_designed_config env hostname sc =
         ((env.validate_structured_config sc).validation_errors,
          Except.error (hostname ++ " validate_structured_config failed")))
    ∧ ((env.validate_structured_config sc).failed = false →
       build_designed_config env hostname sc =
         ([], Except.ok (hostname, env.get_device_config sc))) :=
  ⟨build_structured_config_of_fail, build_structured_config_of_pass,
   build_designed_config_of_fail, build_designed_config_of_pass⟩

/-- Witness for C2 at a concrete failing input. -/
theorem C2_stage_wrappers_validate_witness :
    (sampleEnv.validate_inputs 1).failed = true ∧
    build_structured_config sampleEnv "h1" 1 0 =
      (["bad input"], Except.error ("h1" ++ " validate_inputs failed")) :=
  ⟨by decide, (C2_stage_wrappers_validate sampleEnv "h1" 1 0 0).1 (by decide)⟩

/-- C8: the CLI entry point requires the inventory source location,
defaults the output directory to `intended/configs`, and defaults the
maximum worker count to 10, both in the CLI parser and in `build`'s
signature. -/
theorem C8_cli_defaults :
    cli_inventory_path_required = true ∧
    cli_intended_configs_path_default = ["intended", "configs"] ∧
    cli_max_workers_default = 10 ∧
    build_signature_max_workers_default = 10 :=
  ⟨rfl, rfl, rfl, rfl⟩

/-- C10: when the inventory is empty or holds only the excluded host
`"cvp"`, `build` still invokes the fact aggregator, exactly once and on
the empty mapping, submits no task in either stage, writes no file, and
returns normally: the whole run is the single facts call. -/
theorem C10_empty_inventory (env : Env HV SC F) (inventory : List String)
    (get_vars : String → HV) (path : List String) (dirs : List (List String))
    (reorder1 : List (String × HV) → List (String × HV))
    (reorder2 : List (String × SC) → List (String × SC)) (mw : Nat)
    (hp1 : ∀ l, (reorder1 l).Perm l) (hp2 : ∀ l, (reorder2 l).Perm l)
    (hempty : inventory.filter (fun h => h ≠ "cvp") = []) :
    build env inventory get_vars path dirs reorder1 reorder2 mw =
      { trace := [Event.factsCall [] (env.get_avd_facts [])],
        writes := [], result := Except.ok () } := by
  have hahv : all_hostvars inventory get_vars = [] := by
    unfold all_hostvars
    rw [hempty]
    rfl
  have hr1 : reorder1 (all_hostvars inventory get_vars) = [] := by
    rw [hahv]
    exact (hp1 []).eq_nil
  have hph1 : (phase1Collect env
      (env.get_avd_facts (all_hostvars inventory get_vars))
      (reorder1 (all_hostvars inventory get_vars))).2 =
        Except.ok ([] : List (String × SC)) := by
    rw [hr1]
    rfl
  rw [build_eq_ok hph1, hahv, (hp1 []).eq_nil, (hp2 []).eq_nil]
  simp [phase1Collect, phase2Collect]

/-- Witness for C10: an inventory holding only `"cvp"`. -/
theorem C10_empty_inventory_witness :
    ["cvp"].filter (fun h => h ≠ "cvp") = [] ∧
    build sampleEnv ["cvp"] (fun _ => 0) ["out"] [["out"]] id id 10 =
      { trace := [Event.factsCall [] (sampleEnv.get_avd_facts [])],
        writes := [], result := Except.ok () } :=
  ⟨by decide,
   C10_empty_inventory sampleEnv ["cvp"] (fun _ => 0) ["out"] [["out"]] id id 10
     (fun l => List.Perm.refl l) (fun l => List.Perm.refl l) (by decide)⟩

/-- C4: the fact aggregator is invoked exactly once per run, on the full
mapping of all non-excluded hosts' variables, as the very first recorded
step — in particular before any Stage 1 submission — and every submitted
Stage 1 task receives exactly this fact value together with a hostname
and variables drawn from that same mapping.  (The fact value is a pure
Lean value here, so no step can mutate it.) -/
theorem C4_facts_once_before_stage1 (env : Env HV SC F)
    (inventory : List String) (get_vars : String → HV) (path : List String)
    (dirs : List (List String))
    (reorder1 : List (String × HV) → List (String × HV))
    (reorder2 : List (String × SC) → List (String × SC)) (mw : Nat) :
    (build env inventory get_vars path dirs reorder1 reorder2 mw).trace.head? =
      some (Event.factsCall (all_hostvars inventory get_vars)
        (env.get_avd_facts (all_hostvars inventory get_vars)))
    ∧ ((build env inventory get_vars path dirs reorder1 reorder2 mw).trace.filter
        Event.isFactsCall).length = 1
    ∧ ∀ (h : String) (hv : HV) (f : F),
        Event.submit1 h hv f ∈
            (build env inventory get_vars path dirs reorder1 reorder2 mw).trace →
          f = env.get_avd_facts (all_hostvars inventory get_vars) ∧
          (h, hv) ∈ all_hostvars inventory get_vars := by
  rcases hcase : (phase1Collect env
      (env.get_avd_facts (all_hostvars inventory get_vars))
      (reorder1 (all_hostvars inventory get_vars))).2 with er | configs
  · rw [build_eq_error hcase]
    refine ⟨rfl, ?_, ?_⟩
    · have hrest : ∀ e ∈ (all_hostvars inventory get_vars).flatMap
          (stage1TaskEvents env (env.get_avd_facts (all_hostvars inventory get_vars))) ++
          (phase1Collect env (env.get_avd_facts (all_hostvars inventory get_vars))
            (reorder1 (all_hostvars inventory get_vars))).1,
          Event.isFactsCall e = false := by
        intro e he
        rcases List.mem_append.mp he with he | he
        · exact (stage1Block_shape he).1
        · exact (phase1Events_shape he).1
      simp only [List.filter_cons]
      rw [List.filter_eq_nil_iff.mpr (by intro e he; simp [hrest e he])]
      rfl
    · intro h hv f hmem
      simp only [List.mem_cons] at hmem
      rcases hmem with heq | hmem
      · exact absurd heq (by simp)
      · rcases List.mem_append.mp hmem with hm | hm
        · obtain ⟨hf, hp⟩ := submit1_mem_stage1Block hm
          exact ⟨hf, hp⟩
        · exact absurd (phase1Events_shape hm).2.1 (by simp [Event.isSubmit1])
  · rw [build_eq_ok hcase]
    refine ⟨rfl, ?_, ?_⟩
    · have hrest : ∀ e ∈ (all_hostvars inventory get_vars).flatMap
          (stage1TaskEvents env (env.get_avd_facts (all_hostvars inventory get_vars))) ++
          (phase1Collect env (env.get_avd_facts (all_hostvars inventory get_vars))
            (reorder1 (all_hostvars inventory get_vars))).1 ++
          configs.flatMap (stage2TaskEvents env) ++
          (phase2Collect env path dirs (reorder2 configs)).1,
          Event.isFactsCall e = false := by
        intro e he
        rcases List.mem_append.mp he with he | he
        · rcases List.mem_append.mp he with he | he
          · rcases List.mem_append.mp he with he | he
            · exact (stage1Block_shape he).1
            · exact (phase1Events_shape he).1
          · exact (stage2Block_shape he).1
        · exact (phase2Events_shape he).1
      simp only [List.filter_cons]
      rw [List.filter_eq_nil_iff.mpr (by intro e he; simp [hrest e he])]
      rfl
    · intro h hv f hmem
      simp only [List.mem_cons] at hmem
      rcases hmem with heq | hmem
      · exact absurd heq (by simp)
      · rcases List.mem_append.mp hmem with hm | hm
        · rcases List.mem_append.mp hm with hm | hm
          · rcases List.mem_append.mp hm with hm | hm
            · exact submit1_mem_stage1Block hm
            · exact absurd (phase1Events_shape hm).2.1 (by simp [Event.isSubmit1])
          · exact absurd (stage2Block_shape hm).2.2 (by simp [Event.isSubmit1])
        · exact absurd (phase2Events_shape hm).2.2 (by simp [Event.isSubmit1])

/-- Witness for C4: the facts value handed to the Stage 1 task of host
`"a"` in a concrete run is the one computed from the full mapping. -/
theorem C4_facts_once_before_stage1_witness :
    Event.submit1 "a" 0 2 ∈
      (build sampleEnv ["a", "c"] (fun _ => 0) ["out"] [["out"]] id id 10).trace ∧
    ((2 : Nat) = sampleEnv.get_avd_facts (all_hostvars ["a", "c"] (fun _ => 0)) ∧
      ("a", (0 : Nat)) ∈ all_hostvars ["a", "c"] (fun _ => 0)) :=
  ⟨by decide,
   (C4_facts_once_before_stage1 sampleEnv ["a", "c"] (fun _ => 0) ["out"] [["out"]]
      id id 10).2.2 "a" 0 2 (by decide)⟩

lemma barrier_of_trace_eq {tr : List (Event HV SC F)} {x : Event HV SC F}
    {B1 C1 B2 C2 : List (Event HV SC F)}
    (htr : tr = x :: (B1 ++ C1 ++ B2 ++ C2))
    (hx : Event.isSubmit2 x = false)
    (hB1 : ∀ e ∈ B1, Event.isSubmit2 e = false)
    (hC1 : ∀ e ∈ C1, Event.isSubmit2 e = false)
    (hB2 : ∀ e ∈ B2, Event.isCollect1 e = false)
    (hC2 : ∀ e ∈ C2, Event.isCollect1 e = false) :
    ∀ (i j : Nat) (hi : i < tr.length) (hj : j < tr.length),
      (tr.get ⟨i, hi⟩).isCollect1 = true →
      (tr.get ⟨j, hj⟩).isSubmit2 = true → i < j := by
  subst htr
  intro i j hi hj hP hQ
  exact split_index_lt4 _ _ _ _ _ hx hB1 hC1 hB2 hC2 hi hj hP hQ

/-- C3: full barrier between the stages.  In the run's trace every Stage 1
collection strictly precedes every Stage 2 submission, so no Stage 2 task
is submitted (and a fortiori none starts) before the Stage 1 tasks of all
hosts have completed; and any Stage 2 submission for a host carries
exactly the structured config produced by that host's successful Stage 1
task, whose collection is in the trace. -/
theorem C3_full_barrier (env : Env HV SC F) (inventory : List String)
    (get_vars : String → HV) (path : List String) (dirs : List (List String))
    (reorder1 : List (String × HV) → List (String × HV))
    (reorder2 : List (String × SC) → List (String × SC)) (mw : Nat)
    (hp1 : ∀ l, (reorder1 l).Perm l) :
    (∀ (i j : Nat)
        (hi : i < (build env inventory get_vars path dirs reorder1 reorder2 mw).trace.length)
        (hj : j < (build env inventory get_vars path dirs reorder1 reorder2 mw).trace.length),
        ((build env inventory get_vars path dirs reorder1 reorder2 mw).trace.get
            ⟨i, hi⟩).isCollect1 = true →
        ((build env inventory get_vars path dirs reorder1 reorder2 mw).trace.get
            ⟨j, hj⟩).isSubmit2 = true → i < j)
    ∧ (∀ (h : String) (sc : SC),
        Event.submit2 h sc ∈
            (build env inventory get_vars path dirs reorder1 reorder2 mw).trace →
          (env.validate_inputs (get_vars h)).failed = false ∧
          sc = env.get_device_structured_config h (get_vars h)
            (env.get_avd_facts (all_hostvars inventory get_vars)) ∧
          Event.collect1 h ∈
            (build env inventory get_vars path dirs reorder1 reorder2 mw).trace) := by
  rcases hcase : (phase1Collect env
      (env.get_avd_facts (all_hostvars inventory get_vars))
      (reorder1 (all_hostvars inventory get_vars))).2 with er | configs
  · have hnosub2 : ∀ e ∈
        (build env inventory get_vars path dirs reorder1 reorder2 mw).trace,
        e.isSubmit2 = false := by
      simp only [build_eq_error hcase]
      intro e he
      rcases List.mem_cons.mp he with rfl | he
      · rfl
      · rcases List.mem_append.mp he with he | he
        · exact (stage1Block_shape he).2.2.1
        · exact (phase1Events_shape he).2.2.1
    constructor
    · intro i j hi hj hP hQ
      have hfalse := hnosub2 _ (List.get_mem _ j hj)
      rw [hfalse] at hQ
      exact absurd hQ Bool.false_ne_true
    · intro h sc hmem
      have := hnosub2 _ hmem
      simp [Event.isSubmit2] at this
  · obtain ⟨hpass, hconfigs⟩ := phase1Collect_ok hcase
    constructor
    · refine barrier_of_trace_eq (by rw [build_eq_ok hcase]) ?_ ?_ ?_ ?_ ?_
      · rfl
      · intro e he
        exact (stage1Block_shape he).2.2.1
      · intro e he
        exact (phase1Events_shape he).2.2.1
      · intro e he
        exact (stage2Block_shape he).2.1
      · intro e he
        exact (phase2Events_shape he).2.1
    · intro h sc hmem
      rw [build_eq_ok hcase] at hmem
      rcases List.mem_cons.mp hmem with heq | hmem
      · exact absurd heq (by simp)
      · rcases List.mem_append.mp hmem with hmem | hm
        · rcases List.mem_append.mp hmem with hmem | hm
          · rcases List.mem_append.mp hmem with hm | hm
            · exact absurd (stage1Block_shape hm).2.2.1 (by simp [Event.isSubmit2])
            · exact absurd (phase1Events_shape hm).2.2.1 (by simp [Event.isSubmit2])
          · have hmc : (h, sc) ∈ configs := submit2_mem_stage2Block hm
            rw [hconfigs] at hmc
            simp only [List.mem_map] at hmc
            obtain ⟨p, hporder, heqp⟩ := hmc
            obtain ⟨hp1eq, hsceq⟩ := Prod.mk.injEq .. ▸ heqp
            have hpahv : p ∈ all_hostvars inventory get_vars :=
              ((hp1 _).mem_iff).mp hporder
            obtain ⟨_, _, hgv⟩ := all_hostvars_mem hpahv
            refine ⟨?_, ?_, ?_⟩
            · have hv := hpass p hporder
              rw [hgv, hp1eq] at hv
              exact hv
            · rw [← hsceq, hgv, hp1eq]
            · have hcol : Event.collect1 h ∈
                  (phase1Collect env (env.get_avd_facts (all_hostvars inventory get_vars))
                    (reorder1 (all_hostvars inventory get_vars))).1 := by
                have hev : phase1Collect env
                    (env.get_avd_facts (all_hostvars inventory get_vars))
                    (reorder1 (all_hostvars inventory get_vars)) =
                    ((reorder1 (all_hostvars inventory get_vars)).map
                       (fun p => Event.collect1 p.1),
                     Except.ok ((reorder1 (all_hostvars inventory get_vars)).map
                       (fun p => (p.1, env.get_device_structured_config p.1 p.2
                         (env.get_avd_facts (all_hostvars inventory get_vars)))))) :=
                  phase1Collect_all_pass hpass
                rw [hev]
                simp only [List.mem_map]
                exact ⟨p, hporder, by rw [hp1eq]⟩
              rw [build_eq_ok hcase]
              exact List.mem_cons_of_mem _
                (List.mem_append_left _ (List.mem_append_left _
                  (List.mem_append_right _ hcol)))
        · exact absurd (phase2Events_shape hm).2.2.2 (by simp [Event.isSubmit2])

/-- Witness for C3: in a concrete successful run, the Stage 2 submission
for host `"a"` carries the structured config Stage 1 derived for `"a"`,
whose collection appears in the trace. -/
theorem C3_full_barrier_witness :
    (sampleEnv.validate_inputs ((fun _ => (0 : Nat)) "a")).failed = false ∧
    (2 : Nat) = sampleEnv.get_device_structured_config "a" ((fun _ => (0 : Nat)) "a")
      (sampleEnv.get_avd_facts (all_hostvars ["a", "c"] (fun _ => 0))) ∧
    Event.collect1 "a" ∈
      (build sampleEnv ["a", "c"] (fun _ => 0) ["out"] [["out"]] id id 10).trace :=
  (C3_full_barrier sampleEnv ["a", "c"] (fun _ => 0) ["out"] [["out"]] id id 10
    (fun l => List.Perm.refl l)).2 "a" 2 (by decide)

/-- C1: a failing task in either stage propagates its failure to `build`'s
caller — a run that returns normally implies every Stage 1 input
validation and every Stage 2 structured-config validation passed — and
for any host whose input validation fails the run aborts with an error,
persists nothing (no partial results), and the config renderer is never
invoked for any host, in particular not for that one. -/
theorem C1_failure_aborts_run (env : Env HV SC F) (inventory : List String)
    (get_vars : String → HV) (path : List String) (dirs : List (List String))
    (reorder1 : List (String × HV) → List (String × HV))
    (reorder2 : List (String × SC) → List (String × SC)) (mw : Nat)
    (hp1 : ∀ l, (reorder1 l).Perm l) (hp2 : ∀ l, (reorder2 l).Perm l) :
    ((build env inventory get_vars path dirs reorder1 reorder2 mw).result =
        Except.ok () →
      ∀ p ∈ all_hostvars inventory get_vars,
        (env.validate_inputs p.2).failed = false ∧
        (env.validate_structured_config
          (env.get_device_structured_config p.1 p.2
            (env.get_avd_facts (all_hostvars inventory get_vars)))).failed = false)
    ∧ (∀ p ∈ all_hostvars inventory get_vars,
        (env.validate_inputs p.2).failed = true →
          (∃ er, (build env inventory get_vars path dirs reorder1 reorder2 mw).result =
             Except.error er) ∧
          (build env inventory get_vars path dirs reorder1 reorder2 mw).writes = [] ∧
          ∀ e ∈ (build env inventory get_vars path dirs reorder1 reorder2 mw).trace,
            e.isRenderCall = false) := by
  constructor
  · intro hok p hp
    rcases hcase : (phase1Collect env
        (env.get_avd_facts (all_hostvars inventory get_vars))
        (reorder1 (all_hostvars inventory get_vars))).2 with er | configs
    · rw [build_eq_error hcase] at hok
      exact absurd hok (by simp)
    · obtain ⟨hpass, hconfigs⟩ := phase1Collect_ok hcase
      have hp' : p ∈ reorder1 (all_hostvars inventory get_vars) :=
        ((hp1 _).mem_iff).mpr hp
      refine ⟨hpass p hp', ?_⟩
      rw [build_eq_ok hcase] at hok
      have hok' : (phase2Collect env path dirs (reorder2 configs)).2.2 =
          Except.ok () := hok
      have h2 := phase2Collect_ok hok'
      have hq : (p.1, env.get_device_structured_config p.1 p.2
          (env.get_avd_facts (all_hostvars inventory get_vars))) ∈ configs := by
        rw [hconfigs]
        exact List.mem_map_of_mem _ hp'
      have hq2 := ((hp2 _).mem_iff).mpr hq
      exact h2 _ hq2
  · intro p hp hfail
    have hp' : p ∈ reorder1 (all_hostvars inventory get_vars) :=
      ((hp1 _).mem_iff).mpr hp
    have herr : ∃ e, (phase1Collect env
        (env.get_avd_facts (all_hostvars inventory get_vars))
        (reorder1 (all_hostvars inventory get_vars))).2 = Except.error e :=
      phase1Collect_error_of_mem hfail hp'
    obtain ⟨er, hcase⟩ := herr
    refine ⟨⟨er, ?_⟩, ?_, ?_⟩
    · rw [build_eq_error hcase]
    · rw [build_eq_error hcase]
    · intro e he
      rw [build_eq_error hcase] at he
      rcases List.mem_cons.mp he with rfl | he
      · rfl
      · rcases List.mem_append.mp he with he | he
        · exact (stage1Block_shape he).2.2.2
        · exact (phase1Events_shape he).2.2.2

/-- Witness for C1: a two-host run in which host `"x"` fails input
validation aborts with an error, writes nothing, and never calls the
renderer. -/
theorem C1_failure_aborts_run_witness :
    (("x", (1 : Nat)) ∈ all_hostvars ["a", "x"] sample_get_vars ∧
      (sampleEnv.validate_inputs 1).failed = true) ∧
    ((∃ er, (build sampleEnv ["a", "x"] sample_get_vars ["out"] [["out"]] id id 10).result =
        Except.error er) ∧
     (build sampleEnv ["a", "x"] sample_get_vars ["out"] [["out"]] id id 10).writes = [] ∧
     ∀ e ∈ (build sampleEnv ["a", "x"] sample_get_vars ["out"] [["out"]] id id 10).trace,
       e.isRenderCall = false) :=
  ⟨⟨by decide, by decide⟩,
   (C1_failure_aborts_run sampleEnv ["a", "x"] sample_get_vars ["out"] [["out"]] id id 10
      (fun l => List.Perm.refl l) (fun l => List.Perm.refl l)).2 ("x", 1)
      (by decide) (by decide)⟩

/-- C9: each stage task returns its own hostname paired with its payload;
when every Stage 1 validation passes, the collected structured-config
mapping has exactly one entry per non-excluded host (its keys are a
duplicate-free permutation of the filtered inventory), each entry holding
the config derived from that same host's variables; and every Stage 2
submission carries exactly its host's Stage 1 output, regardless of the
completion order within the phase. -/
theorem C9_same_host_pairing (env : Env HV SC F) (inventory : List String)
    (get_vars : String → HV) (path : List String) (dirs : List (List String))
    (reorder1 : List (String × HV) → List (String × HV))
    (reorder2 : List (String × SC) → List (String × SC)) (mw : Nat)
    (hp1 : ∀ l, (reorder1 l).Perm l) (hnodup : inventory.Nodup)
    (hpass : ∀ p ∈ all_hostvars inventory get_vars,
      (env.validate_inputs p.2).failed = false) :
    (∀ (h : String) (hv : HV) (f : F) (q : String × SC),
        (build_structured_config env h hv f).2 = Except.ok q → q.1 = h)
    ∧ (∀ (h : String) (sc : SC) (q : String × String),
        (build_designed_config env h sc).2 = Except.ok q → q.1 = h)
    ∧ (∃ configs,
        (phase1Collect env (env.get_avd_facts (all_hostvars inventory get_vars))
          (reorder1 (all_hostvars inventory get_vars))).2 = Except.ok configs ∧
        (configs.map Prod.fst).Perm (inventory.filter (fun h => h ≠ "cvp")) ∧
        (configs.map Prod.fst).Nodup ∧
        ∀ q ∈ configs, q.2 = env.get_device_structured_config q.1 (get_vars q.1)
          (env.get_avd_facts (all_hostvars inventory get_vars)))
    ∧ (∀ (h : String) (sc : SC),
        Event.submit2 h sc ∈
          (build env inventory get_vars path dirs reorder1 reorder2 mw).trace →
        sc = env.get_device_structured_config h (get_vars h)
          (env.get_avd_facts (all_hostvars inventory get_vars))) := by
  have hpass' : ∀ p ∈ reorder1 (all_hostvars inventory get_vars),
      (env.validate_inputs p.2).failed = false :=
    fun p hp => hpass p (((hp1 _).mem_iff).mp hp)
  have hev : phase1Collect env
      (env.get_avd_facts (all_hostvars inventory get_vars))
      (reorder1 (all_hostvars inventory get_vars)) =
      ((reorder1 (all_hostvars inventory get_vars)).map
         (fun p => Event.collect1 p.1),
       Except.ok ((reorder1 (all_hostvars inventory get_vars)).map
         (fun p => (p.1, env.get_device_structured_config p.1 p.2
           (env.get_avd_facts (all_hostvars inventory get_vars)))))) :=
    phase1Collect_all_pass hpass'
  have hahvmap : (all_hostvars inventory get_vars).map Prod.fst =
      inventory.filter (fun h => h ≠ "cvp") := by
    simp only [all_hostvars, List.map_map]
    exact List.map_id'' (fun x => rfl) _
  refine ⟨?_, ?_, ?_, ?_⟩
  · intro h hv f q heq
    by_cases hf : (env.validate_inputs hv).failed
    · rw [build_structured_config_of_fail hf] at heq
      exact absurd heq (by simp)
    · rw [build_structured_config_of_pass (by simpa using hf)] at heq
      simp only [Except.ok.injEq] at heq
      rw [← heq]
  · intro h sc q heq
    by_cases hf : (env.validate_structured_config sc).failed
    · rw [build_designed_config_of_fail hf] at heq
      exact absurd heq (by simp)
    · rw [build_designed_config_of_pass (by simpa using hf)] at heq
      simp only [Except.ok.injEq] at heq
      rw [← heq]
  · refine ⟨(reorder1 (all_hostvars inventory get_vars)).map
        (fun p => (p.1, env.get_device_structured_config p.1 p.2
          (env.get_avd_facts (all_hostvars inventory get_vars)))), ?_, ?_, ?_, ?_⟩
    · rw [hev]
    · have h1 : (((reorder1 (all_hostvars inventory get_vars)).map
          (fun p => (p.1, env.get_device_structured_config p.1 p.2
            (env.get_avd_facts (all_hostvars inventory get_vars))))).map Prod.fst) =
          (reorder1 (all_hostvars inventory get_vars)).map (fun p => p.1) := by
        rw [List.map_map]
        rfl
      rw [h1, ← hahvmap]
      exact (hp1 _).map Prod.fst
    · have h1 : (((reorder1 (all_hostvars inventory get_vars)).map
          (fun p => (p.1, env.get_device_structured_config p.1 p.2
            (env.get_avd_facts (all_hostvars inventory get_vars))))).map Prod.fst) =
          (reorder1 (all_hostvars inventory get_vars)).map (fun p => p.1) := by
        rw [List.map_map]
        rfl
      rw [h1]
      have hfiltered : (inventory.filter (fun h => h ≠ "cvp")).Nodup :=
        hnodup.filter _
      have hperm : ((reorder1 (all_hostvars inventory get_vars)).map Prod.fst).Perm
          (inventory.filter (fun h => h ≠ "cvp")) := by
        rw [← hahvmap]
        exact (hp1 _).map Prod.fst
      exact (hperm.nodup_iff).mpr hfiltered
    · intro q hq
      simp only [List.mem_map] at hq
      obtain ⟨p, hporder, rfl⟩ := hq
      obtain ⟨_, _, hgv⟩ := all_hostvars_mem (((hp1 _).mem_iff).mp hporder)
      simp only
      rw [hgv]
  · intro h sc hmem
    have hok2 : (phase1Collect env
        (env.get_avd_facts (all_hostvars inventory get_vars))
        (reorder1 (all_hostvars inventory get_vars))).2 =
        Except.ok ((reorder1 (all_hostvars inventory get_vars)).map
          (fun p => (p.1, env.get_device_structured_config p.1 p.2
            (env.get_avd_facts (all_hostvars inventory get_vars))))) := by
      rw [hev]
    rw [build_eq_ok hok2] at hmem
    rcases List.mem_cons.mp hmem with heq | hmem
    · exact absurd heq (by simp)
    · rcases List.mem_append.mp hmem with hmem | hm
      · rcases List.mem_append.mp hmem with hmem | hm
        · rcases List.mem_append.mp hmem with hm | hm
          · exact absurd (stage1Block_shape hm).2.2.1 (by simp [Event.isSubmit2])
          · exact absurd (phase1Events_shape hm).2.2.1 (by simp [Event.isSubmit2])
        · have hmc := submit2_mem_stage2Block hm
          simp only [List.mem_map] at hmc
          obtain ⟨p, hporder, heqp⟩ := hmc
          obtain ⟨hp1eq, hsceq⟩ := Prod.mk.injEq .. ▸ heqp
          obtain ⟨_, _, hgv⟩ := all_hostvars_mem (((hp1 _).mem_iff).mp hporder)
          rw [← hsceq, hgv, hp1eq]
      · exact absurd (phase2Events_shape hm).2.2.2 (by simp [Event.isSubmit2])

/-- Witness for C9: the Stage 2 submission of host `"a"` in a concrete
run carries exactly the structured config Stage 1 derived for `"a"`. -/
theorem C9_same_host_pairing_witness :
    (2 : Nat) = sampleEnv.get_device_structured_config "a" ((fun _ => (0 : Nat)) "a")
      (sampleEnv.get_avd_facts (all_hostvars ["a", "c"] (fun _ => 0))) :=
  (C9_same_host_pairing sampleEnv ["a", "c"] (fun _ => 0) ["out"] [["out"]] id id 10
    (fun l => List.Perm.refl l) (by decide) (by decide)).2.2.2 "a" 2 (by decide)

set_option linter.unusedVariables false in
/-- C5: on a fully successful run the persisted artifacts are exactly one
`<hostname>.cfg` file in the output directory per inventory host except
the excluded host `"cvp"`, holding that host's rendered config — and
nothing else (no manifest or index file).  The `hnodup` hypothesis
mirrors the uniqueness of hostnames in an Ansible inventory, under which
the association-list model is faithful to the Python dict. -/
theorem C5_output_artifacts (env : Env HV SC F) (inventory : List String)
    (get_vars : String → HV) (path : List String) (dirs : List (List String))
    (reorder1 : List (String × HV) → List (String × HV))
    (reorder2 : List (String × SC) → List (String × SC)) (mw : Nat)
    (hp1 : ∀ l, (reorder1 l).Perm l) (hp2 : ∀ l, (reorder2 l).Perm l)
    (hnodup : inventory.Nodup)
    (hpass1 : ∀ p ∈ all_hostvars inventory get_vars,
      (env.validate_inputs p.2).failed = false)
    (hpass2 : ∀ p ∈ all_hostvars inventory get_vars,
      (env.validate_structured_config (env.get_device_structured_config p.1 p.2
        (env.get_avd_facts (all_hostvars inventory get_vars)))).failed = false)
    (hdir : path ∈ dirs) :
    (build env inventory get_vars path dirs reorder1 reorder2 mw).result =
      Except.ok () ∧
    (build env inventory get_vars path dirs reorder1 reorder2 mw).writes.Perm
      ((inventory.filter (fun h => h ≠ "cvp")).map
        (fun h => (path ++ [h ++ ".cfg"], env.get_device_config
          (env.get_device_structured_config h (get_vars h)
            (env.get_avd_facts (all_hostvars inventory get_vars)))))) :=
  build_all_pass env inventory get_vars path dirs reorder1 reorder2 mw
    hp1 hp2 hpass1 hpass2 hdir

/-- Witness for C5: a successful concrete run writes exactly `a.cfg` and
`c.cfg`, with host `"cvp"` excluded. -/
theorem C5_output_artifacts_witness :
    (build sampleEnv ["a", "c", "cvp"] (fun _ => 0) ["out"] [["out"]] id id 10).result =
      Except.ok () ∧
    (build sampleEnv ["a", "c", "cvp"] (fun _ => 0) ["out"] [["out"]] id id 10).writes.Perm
      ((["a", "c", "cvp"].filter (fun h => h ≠ "cvp")).map
        (fun h => (["out"] ++ [h ++ ".cfg"], sampleEnv.get_device_config
          (sampleEnv.get_device_structured_config h 0
            (sampleEnv.get_avd_facts (all_hostvars ["a", "c", "cvp"] (fun _ => 0))))))) :=
  C5_output_artifacts sampleEnv ["a", "c", "cvp"] (fun _ => 0) ["out"] [["out"]] id id 10
    (fun l => List.Perm.refl l) (fun l => List.Perm.refl l) (by decide)
    (by decide) (by decide) (by decide)

/-- C6 (amended): on runs where every validation passes, the multiset of
persisted `(path, content)` artifacts — hence each host's file content —
is identical across two runs on identical inputs, for any completion
orders and any worker counts.  (As stated over all runs the claim fails:
on a run with a Stage 2 validation failure the set of files already
written when the run aborts depends on the completion order, see the
counterexample.) -/
theorem C6_determinism_all_pass (env : Env HV SC F) (inventory : List String)
    (get_vars : String → HV) (path : List String) (dirs : List (List String))
    (reorder1 reorder1' : List (String × HV) → List (String × HV))
    (reorder2 reorder2' : List (String × SC) → List (String × SC)) (mw mw' : Nat)
    (hp1 : ∀ l, (reorder1 l).Perm l) (hp2 : ∀ l, (reorder2 l).Perm l)
    (hp1' : ∀ l, (reorder1' l).Perm l) (hp2' : ∀ l, (reorder2' l).Perm l)
    (hpass1 : ∀ p ∈ all_hostvars inventory get_vars,
      (env.validate_inputs p.2).failed = false)
    (hpass2 : ∀ p ∈ all_hostvars inventory get_vars,
      (env.validate_structured_config (env.get_device_structured_config p.1 p.2
        (env.get_avd_facts (all_hostvars inventory get_vars)))).failed = false)
    (hdir : path ∈ dirs) :
    (build env inventory get_vars path dirs reorder1 reorder2 mw).writes.Perm
      (build env inventory get_vars path dirs reorder1' reorder2' mw').writes :=
  ((build_all_pass env inventory get_vars path dirs reorder1 reorder2 mw
      hp1 hp2 hpass1 hpass2 hdir).2).trans
    ((build_all_pass env inventory get_vars path dirs reorder1' reorder2' mw'
      hp1' hp2' hpass1 hpass2 hdir).2).symm

/-- Counterexample to C6 as stated: identical inputs where host `"b"`
fails Stage 2 validation.  With one worker (submission-order completion)
the run writes `a.cfg` before aborting; with two workers and `"b"`
completing first nothing is written — the persisted per-host artifacts
differ between the two runs. -/
theorem C6_determinism_counterexample :
    (build sampleEnv ["a", "b"] (fun _ => 0) ["out"] [["out"]] id id 1).writes ≠
    (build sampleEnv ["a", "b"] (fun _ => 0) ["out"] [["out"]] id List.reverse 2).writes := by
  decide

/-- Witness for the amended C6 at concrete inputs: an all-passing run
produces permutation-identical writes under two different completion
orders and worker counts. -/
theorem C6_determinism_all_pass_witness :
    (build sampleEnv ["a", "c"] (fun _ => 0) ["out"] [["out"]] id id 1).writes.Perm
      (build sampleEnv ["a", "c"] (fun _ => 0) ["out"] [["out"]] id List.reverse 2).writes :=
  C6_determinism_all_pass sampleEnv ["a", "c"] (fun _ => 0) ["out"] [["out"]]
    id id id List.reverse 1 2
    (fun l => List.Perm.refl l) (fun l => List.Perm.refl l)
    (fun l => List.Perm.refl l) (fun l => List.reverse_perm l)
    (by decide) (by decide) (by decide)

/-- C7 (amended): `build` never creates the output directory; when the
directory is absent and at least one (non-excluded, fully validating)
host reaches the write step, the run aborts with a file-not-found error
and persists nothing.  (The claim as stated — the writer creates the
missing directory so the run does not fail — is refuted by the
counterexample.) -/
theorem C7_missing_directory_aborts (env : Env HV SC F) (inventory : List String)
    (get_vars : String → HV) (path : List String) (dirs : List (List String))
    (reorder1 : List (String × HV) → List (String × HV))
    (reorder2 : List (String × SC) → List (String × SC)) (mw : Nat)
    (hp1 : ∀ l, (reorder1 l).Perm l) (hp2 : ∀ l, (reorder2 l).Perm l)
    (hpass1 : ∀ p ∈ all_hostvars inventory get_vars,
      (env.validate_inputs p.2).failed = false)
    (hpass2 : ∀ p ∈ all_hostvars inventory get_vars,
      (env.validate_structured_config (env.get_device_structured_config p.1 p.2
        (env.get_avd_facts (all_hostvars inventory get_vars)))).failed = false)
    (hne : inventory.filter (fun h => h ≠ "cvp") ≠ [])
    (habs : path ∉ dirs) :
    (build env inventory get_vars path dirs reorder1 reorder2 mw).result =
      Except.error "FileNotFoundError" ∧
    (build env inventory get_vars path dirs reorder1 reorder2 mw).writes = [] := by
  have hpass1' : ∀ p ∈ reorder1 (all_hostvars inventory get_vars),
      (env.validate_inputs p.2).failed = false :=
    fun p hp => hpass1 p (((hp1 _).mem_iff).mp hp)
  have hev : phase1Collect env
      (env.get_avd_facts (all_hostvars inventory get_vars))
      (reorder1 (all_hostvars inventory get_vars)) =
      ((reorder1 (all_hostvars inventory get_vars)).map
         (fun p => Event.collect1 p.1),
       Except.ok ((reorder1 (all_hostvars inventory get_vars)).map
         (fun p => (p.1, env.get_device_structured_config p.1 p.2
           (env.get_avd_facts (all_hostvars inventory get_vars)))))) :=
    phase1Collect_all_pass hpass1'
  have hok2 : (phase1Collect env
      (env.get_avd_facts (all_hostvars inventory get_vars))
      (reorder1 (all_hostvars inventory get_vars))).2 =
      Except.ok ((reorder1 (all_hostvars inventory get_vars)).map
        (fun p => (p.1, env.get_device_structured_config p.1 p.2
          (env.get_avd_facts (all_hostvars inventory get_vars))))) := by
    rw [hev]
  rw [build_eq_ok hok2]
  have hpass2' : ∀ q ∈ reorder2 ((reorder1 (all_hostvars inventory get_vars)).map
      (fun p => (p.1, env.get_device_structured_config p.1 p.2
        (env.get_avd_facts (all_hostvars inventory get_vars))))),
      (env.validate_structured_config q.2).failed = false := by
    intro q hq
    have hq' := ((hp2 _).mem_iff).mp hq
    simp only [List.mem_map] at hq'
    obtain ⟨p, hporder, rfl⟩ := hq'
    exact hpass2 p (((hp1 _).mem_iff).mp hporder)
  have hne2 : reorder2 ((reorder1 (all_hostvars inventory get_vars)).map
      (fun p => (p.1, env.get_device_structured_config p.1 p.2
        (env.get_avd_facts (all_hostvars inventory get_vars))))) ≠ [] := by
    intro h0
    have hc : ((reorder1 (all_hostvars inventory get_vars)).map
        (fun p => (p.1, env.get_device_structured_config p.1 p.2
          (env.get_avd_facts (all_hostvars inventory get_vars))))) = [] := by
      have hperm := hp2 ((reorder1 (all_hostvars inventory get_vars)).map
        (fun p => (p.1, env.get_device_structured_config p.1 p.2
          (env.get_avd_facts (all_hostvars inventory get_vars)))))
      rw [h0] at hperm
      exact hperm.symm.eq_nil
    have hr1nil : reorder1 (all_hostvars inventory get_vars) = [] :=
      List.map_eq_nil_iff.mp hc
    have hahvnil : all_hostvars inventory get_vars = [] := by
      have hperm := hp1 (all_hostvars inventory get_vars)
      rw [hr1nil] at hperm
      exact hperm.symm.eq_nil
    have : inventory.filter (fun h => h ≠ "cvp") = [] := by
      have := congrArg List.length hahvnil
      simp only [all_hostvars, List.length_map] at this
      exact List.length_eq_zero.mp this
    exact hne this
  rcases hexist : reorder2 ((reorder1 (all_hostvars inventory get_vars)).map
      (fun p => (p.1, env.get_device_structured_config p.1 p.2
        (env.get_avd_facts (all_hostvars inventory get_vars))))) with _ | ⟨⟨a, sc⟩, rest⟩
  · exact absurd hexist hne2
  · have hq : (env.validate_structured_config sc).failed = false := by
      apply hpass2' (a, sc)
      rw [hexist]
      exact List.mem_cons_self (a, sc) rest
    have hred : phase2Collect env path dirs ((a, sc) :: rest) =
        ([Event.collect2 a], [], Except.error "FileNotFoundError") :=
      phase2Collect_cons_pass_nodir hq habs
    constructor
    · show (phase2Collect env path dirs (reorder2 _)).2.2 = _
      rw [hexist, hred]
    · show (phase2Collect env path dirs (reorder2 _)).2.1 = []
      rw [hexist, hred]

/-- Counterexample to C7 as stated: with a single valid host and an
absent output directory the run fails with a file-not-found error instead
of creating the directory. -/
theorem C7_missing_directory_counterexample :
    (build sampleEnv ["a"] (fun _ => 0) ["out"] [] id id 10).result =
      Except.error "FileNotFoundError" ∧
    (build sampleEnv ["a"] (fun _ => 0) ["out"] [] id id 10).writes = [] :=
  ⟨rfl, rfl⟩

/-- Witness for the amended C7 at the same concrete inputs. -/
theorem C7_missing_directory_aborts_witness :
    (["a"].filter (fun h => h ≠ "cvp") ≠ [] ∧ (["out"] : List String) ∉ ([] : List (List String))) ∧
    ((build sampleEnv ["a"] (fun _ => 0) ["out"] [] id id 10).result =
        Except.error "FileNotFoundError" ∧
      (build sampleEnv ["a"] (fun _ => 0) ["out"] [] id id 10).writes = []) :=
  ⟨⟨by decide, by decide⟩,
   C7_missing_directory_aborts sampleEnv ["a"] (fun _ => 0) ["out"] [] id id 10
     (fun l => List.Perm.refl l) (fun l => List.Perm.refl l)
     (by decide) (by decide) (by decide) (by decide)⟩

end AvdBuild
